import Mathlib

/-!
Verification of the probot core against its specification.

Shallow embedding of the code in `src/src/index.ts` (the `Probot` class,
its constructor, `Probot.receive`, and `createProbot`) and
`src/src/octokit/get-authenticated-octokit.ts` (`getAuthenticatedOctokit`).
JavaScript optional values are `Option`, JS falsiness of strings and
numbers is modelled explicitly (absent, the empty string and `0` are
falsy), opaque runtime objects (loggers, Octokit constructors and
instances) are `Nat` handles, and thrown constructor errors are
`Except String`.
-/

/-- JS truthiness of an optional string: `undefined` and `""` are falsy. -/
def jsTruthy : Option String → Bool
  | none => false
  | some s => s ≠ ""

/-- JS `v || d` for an optional string `v` and default `d`: the default is
taken when `v` is absent or the empty string. -/
def jsOr (v : Option String) (d : String) : String :=
  match v with
  | some s => if s = "" then d else s
  | none => d

/-- The `State` record of `src/src/types.ts`, restricted to the fields the
embedded functions read. `log`, `Octokit` and `octokit` are opaque handles;
`throttleOptions` has type `any` in the source and is `none` when falsy. -/
structure State where
  githubToken : Option String
  log : Nat
  Octokit : Nat
  octokit : Nat
  throttleOptions : Option Nat
deriving DecidableEq, Repr

/-- The constructor options assembled in `getAuthenticatedOctokit` before
`new Octokit(options)`: the bound pino child logger, the spread of
`constructorAuthOptions` (`auth: { installationId }` or `{}`), and the
spread of `constructorThrottleOptions` (`throttle: { id, ...throttleOptions }`
or `{}`). -/
structure OctokitOptions where
  logParent : Nat
  logChildName : String
  authInstallationId : Option Int
  throttle : Option (Int × Nat)
deriving DecidableEq, Repr

/-- Result of `getAuthenticatedOctokit`: either the pre-constructed
app-level client taken from the state, or a freshly constructed client
(the state's `Octokit` constructor applied to the assembled options). -/
inductive AuthResult
  | existing (client : Nat)
  | constructed (ctor : Nat) (opts : OctokitOptions)
deriving DecidableEq, Repr

/-- Embedding of `getAuthenticatedOctokit` from
`src/src/octokit/get-authenticated-octokit.ts`. The guard
`if (!installationId) return octokit` is a JS falsiness test, so both an
absent and a zero `installationId` return the pre-constructed client. -/
def getAuthenticatedOctokit (state : State) (installationId : Option Int) :
    AuthResult :=
  match installationId with
  | none => .existing state.octokit
  | some id =>
    if id = 0 then .existing state.octokit
    else
      let constructorAuthOptions : Option Int :=
        if jsTruthy state.githubToken then none else some id
      let constructorThrottleOptions : Option (Int × Nat) :=
        match state.throttleOptions with
        | some t => some (id, t)
        | none => none
      .constructed state.Octokit
        { logParent := state.log
          logChildName := "github"
          authInstallationId := constructorAuthOptions
          throttle := constructorThrottleOptions }

/-- Whether a result of `getAuthenticatedOctokit` carries installation-scoped
auth options (`auth: { installationId }`). The pre-constructed app-level
client never does. -/
def hasInstallationAuth : AuthResult → Bool
  | .existing _ => false
  | .constructed _ opts => opts.authInstallationId.isSome

/-- Claim C4: with `installationId` omitted, `getAuthenticatedOctokit`
returns the pre-constructed application-level client from the state and
constructs no new installation-scoped client. -/
theorem app_level_client_when_id_omitted (state : State) :
    getAuthenticatedOctokit state none = .existing state.octokit ∧
    ∀ ctor opts, getAuthenticatedOctokit state none ≠ .constructed ctor opts := by
  refine ⟨rfl, ?_⟩
  intro ctor opts h
  simp [getAuthenticatedOctokit] at h

/-- Claim C8: `installationId = 0` is falsy in JS, so the factory behaves
exactly as if the id were absent and returns the app-level client. -/
theorem zero_installation_id_app_level_client (state : State) :
    getAuthenticatedOctokit state (some 0) = .existing state.octokit ∧
    getAuthenticatedOctokit state (some 0) =
      getAuthenticatedOctokit state none := by
  exact ⟨by simp [getAuthenticatedOctokit], by simp [getAuthenticatedOctokit]⟩

/-- Claim C5: with a truthy `installationId` and no `githubToken`, the
factory constructs a new client via the state's `Octokit` constructor whose
auth options are bound to that installation, and whenever throttle options
are configured the client's throttle options carry `id = installationId`. -/
theorem installation_client_bound_and_throttled (state : State) (id : Int)
    (hid : id ≠ 0) (htok : state.githubToken = none) :
    ∃ opts, getAuthenticatedOctokit state (some id) =
        .constructed state.Octokit opts ∧
      opts.authInstallationId = some id ∧
      (∀ t, state.throttleOptions = some t → opts.throttle = some (id, t)) ∧
      (state.throttleOptions = none → opts.throttle = none) := by
  refine ⟨{ logParent := state.log, logChildName := "github",
            authInstallationId := some id,
            throttle := match state.throttleOptions with
              | some t => some (id, t)
              | none => none }, ?_, rfl, ?_, ?_⟩
  · simp [getAuthenticatedOctokit, hid, htok, jsTruthy]
  · intro t ht
    simp [ht]
  · intro ht
    simp [ht]

/-- Witness for `installation_client_bound_and_throttled` at a concrete
state with throttle options configured and installation id 7. -/
theorem installation_client_bound_and_throttled_witness :
    ∃ opts,
      getAuthenticatedOctokit
          { githubToken := none, log := 1, Octokit := 2, octokit := 3,
            throttleOptions := some 4 } (some 7) =
        .constructed 2 opts ∧
      opts.authInstallationId = some 7 ∧
      (∀ t, (some 4 : Option Nat) = some t → opts.throttle = some (7, t)) ∧
      ((some 4 : Option Nat) = none → opts.throttle = none) :=
  installation_client_bound_and_throttled
    { githubToken := none, log := 1, Octokit := 2, octokit := 3,
      throttleOptions := some 4 } 7 (by decide) rfl

/-- Claim C6: with a (truthy) static `githubToken` configured, no result of
the factory ever carries installation auth options: a truthy id yields a
freshly constructed client with empty auth options, and a falsy id yields
the pre-constructed client. -/
theorem github_token_bypasses_installation_auth (state : State)
    (installationId : Option Int) (htok : jsTruthy state.githubToken = true) :
    hasInstallationAuth (getAuthenticatedOctokit state installationId) = false ∧
    (∀ id, id ≠ 0 → installationId = some id →
      ∃ opts, getAuthenticatedOctokit state installationId =
          .constructed state.Octokit opts ∧ opts.authInstallationId = none) := by
  constructor
  · match installationId with
    | none => rfl
    | some id =>
      by_cases hid : id = 0
      · simp [getAuthenticatedOctokit, hid, hasInstallationAuth]
      · simp [getAuthenticatedOctokit, hid, htok, hasInstallationAuth]
  · intro id hid hsome
    subst hsome
    exact ⟨{ logParent := state.log, logChildName := "github",
             authInstallationId := none,
             throttle := match state.throttleOptions with
               | some t => some (id, t)
               | none => none },
           by simp [getAuthenticatedOctokit, hid, htok], rfl⟩

/-- Witness for `github_token_bypasses_installation_auth` at a concrete
state carrying a static token and installation id 9. -/
theorem github_token_bypasses_installation_auth_witness :
    hasInstallationAuth
        (getAuthenticatedOctokit
          { githubToken := some "ghp_x", log := 1, Octokit := 2, octokit := 3,
            throttleOptions := some 4 } (some 9)) = false :=
  (github_token_bypasses_installation_auth
    { githubToken := some "ghp_x", log := 1, Octokit := 2, octokit := 3,
      throttleOptions := some 4 } (some 9) (by decide)).1

/-- The `Options` interface of `src/src/index.ts`. Opaque runtime objects
(`Octokit` constructor, `log`) and the redis config are `Nat` handles. -/
structure Options where
  privateKey : Option String
  githubToken : Option String
  id : Option Int
  Octokit : Option Nat
  log : Option Nat
  redisConfig : Option Nat
  secret : Option String
  webhookPath : Option String
  cert : Option String
  port : Option Int
  webhookProxy : Option String
deriving DecidableEq, Repr, Inhabited

/-- The process environment variables read by the `Probot` constructor. -/
structure Env where
  GHE_HOST : Option String
  INSTALLATION_TOKEN_TTL : Option String
deriving DecidableEq, Repr, Inhabited

/-- JS `Number(v)` on an optional environment string, as `Option Int`
(`none` is `NaN`): `Number(undefined)` is `NaN`, `Number("")` is `0`,
a decimal integer string is its value and a non-numeric string is `NaN`.
Fractional numeric strings are outside the model. -/
def jsToNumber (v : Option String) : Option Int :=
  match v with
  | none => none
  | some s => if s = "" then some 0 else s.toInt?

/-- The `maxAge` computed for the token LRU cache:
`Number(process.env.INSTALLATION_TOKEN_TTL) || 1000 * 60 * 59` — the JS `||`
falls through to the default on `NaN` and `0`. -/
def installationTokenMaxAge (ttl : Option String) : Int :=
  match jsToNumber ttl with
  | some n => if n = 0 then 1000 * 60 * 59 else n
  | none => 1000 * 60 * 59

/-- The constructor's guard on `GHE_HOST`:
`process.env.GHE_HOST && /^https?:\/\//.test(process.env.GHE_HOST)`. -/
def gheHostInvalid (h : Option String) : Bool :=
  jsTruthy h &&
    ((h.getD "").startsWith "http://" || (h.getD "").startsWith "https://")

/-- Handle of the logger produced by `getLog()`. -/
def defaultLog : Nat := 0

/-- Handle of the `ProbotOctokit` constructor, the default for
`options.Octokit`. -/
def probotOctokitDefault : Nat := 1

/-- The arguments passed to `getProbotOctokitWithDefaults` in the
constructor (after the `cert` deprecation shim has run). -/
structure OctokitDefaults where
  githubToken : Option String
  Octokit : Nat
  appId : Option Int
  privateKey : Option String
  cacheMax : Nat
  cacheMaxAge : Int
deriving DecidableEq, Repr, Inhabited

/-- The configuration handed to `new Webhooks({...})` in the constructor. -/
structure WebhooksConfig where
  path : String
  secret : String
deriving DecidableEq, Repr, Inhabited

/-- Observable state of a constructed `Probot`: the (mutated) options
object stored as `this.options`, the resolved logger, the LRU cache bounds,
the Octokit defaults, the throttle-options inputs, and the webhooks
configuration. -/
structure ProbotModel where
  options : Options
  log : Nat
  cacheMax : Nat
  cacheMaxAge : Int
  octokitDefaults : OctokitDefaults
  throttleLog : Nat
  throttleRedis : Option Nat
  webhooks : WebhooksConfig
deriving DecidableEq, Repr, Inhabited

/-- The `Probot` constructor of `src/src/index.ts` (lines 166-239): the
`GHE_HOST` guard throws; `options.webhookPath` and `options.secret` are
defaulted in place; the logger is `options.log || getLog()`; a set `cert`
overwrites `options.privateKey`; the LRU cache is created with `max` 15000
and the `INSTALLATION_TOKEN_TTL`-controlled `maxAge`; the mutated options
object is stored as `this.options`. -/
def probotNew (env : Env) (options : Options) : Except String ProbotModel :=
  if gheHostInvalid env.GHE_HOST then
    .error
      "Your GHE_HOST environment variable should not begin with https:// or http://"
  else
    let options := { options with webhookPath := some (jsOr options.webhookPath "/") }
    let options := { options with secret := some (jsOr options.secret "development") }
    let log := options.log.getD defaultLog
    let options :=
      if jsTruthy options.cert then { options with privateKey := options.cert }
      else options
    let cacheMax : Nat := 15000
    let cacheMaxAge := installationTokenMaxAge env.INSTALLATION_TOKEN_TTL
    .ok
      { options := options
        log := log
        cacheMax := cacheMax
        cacheMaxAge := cacheMaxAge
        octokitDefaults :=
          { githubToken := options.githubToken
            Octokit := options.Octokit.getD probotOctokitDefault
            appId := options.id
            privateKey := options.privateKey
            cacheMax := cacheMax
            cacheMaxAge := cacheMaxAge }
        throttleLog := log
        throttleRedis := options.redisConfig
        webhooks :=
          { path := options.webhookPath.getD "/"
            secret := options.secret.getD "development" } }

/-- Embedding of `createProbot` of `src/src/index.ts` (lines 332-340): defaults
`options.log`, emits a deprecation warning (a log line, not part of the
model), and calls the constructor. -/
def createProbot (env : Env) (options : Options) : Except String ProbotModel :=
  let options := { options with log := some (options.log.getD defaultLog) }
  probotNew env options

/-- Forgets the `log` field of the stored options object — the one field
`createProbot` writes before construction. -/
def eraseOptionsLog (m : ProbotModel) : ProbotModel :=
  { m with options := { m.options with log := none } }

/-- Example environment with neither `GHE_HOST` nor `INSTALLATION_TOKEN_TTL`
set. -/
def exampleEnv : Env := { GHE_HOST := none, INSTALLATION_TOKEN_TTL := none }

/-- Example options object with every field absent. -/
def exampleOptions : Options :=
  { privateKey := none, githubToken := none, id := none, Octokit := none,
    log := none, redisConfig := none, secret := none, webhookPath := none,
    cert := none, port := none, webhookProxy := none }

/-- The model of the `Probot` constructed from `exampleEnv` and
`exampleOptions` (the construction succeeds, so the fallback is unused). -/
def exampleModel : ProbotModel :=
  match probotNew exampleEnv exampleOptions with
  | .ok m => m
  | .error _ => default

/-- Claim C3: the token cache's entry lifetime defaults to
`1000 * 60 * 59` ms — 59 minutes, i.e. the 60-minute default platform
expiry minus a 60-second margin — and the `INSTALLATION_TOKEN_TTL`
environment variable overrides it (via JS `||`, whose fall-through cases
are `NaN` and `0`). -/
theorem cache_ttl_fifty_nine_minutes (env : Env) (options : Options)
    (m : ProbotModel) (h : probotNew env options = .ok m) :
    m.cacheMaxAge = installationTokenMaxAge env.INSTALLATION_TOKEN_TTL ∧
    (jsToNumber env.INSTALLATION_TOKEN_TTL = none ∨
        jsToNumber env.INSTALLATION_TOKEN_TTL = some 0 →
      m.cacheMaxAge = 1000 * 60 * 59) ∧
    (∀ n, jsToNumber env.INSTALLATION_TOKEN_TTL = some n → n ≠ 0 →
      m.cacheMaxAge = n) ∧
    (1000 * 60 * 59 : Int) = 1000 * 60 * 60 - 1000 * 60 := by
  have hage : m.cacheMaxAge = installationTokenMaxAge env.INSTALLATION_TOKEN_TTL := by
    unfold probotNew at h
    split at h
    · exact absurd h (by simp)
    · simp only [Except.ok.injEq] at h
      subst h
      rfl
  refine ⟨hage, ?_, ?_, by norm_num⟩
  · intro hcase
    rw [hage]
    unfold installationTokenMaxAge
    rcases hcase with h0 | h0 <;> simp [h0]
  · intro n hn hne
    rw [hage]
    unfold installationTokenMaxAge
    rw [hn]
    simp [hne]

/-- Witness for `cache_ttl_fifty_nine_minutes`: with no
`INSTALLATION_TOKEN_TTL` in the environment, the constructed cache's
`maxAge` is 59 minutes in milliseconds. -/
theorem cache_ttl_fifty_nine_minutes_witness :
    exampleModel.cacheMaxAge = 1000 * 60 * 59 :=
  (cache_ttl_fifty_nine_minutes exampleEnv exampleOptions exampleModel
      rfl).2.1 (Or.inl rfl)

/-- Claim C9: `createProbot(options)` and `new Probot(options)` produce
models that agree on every observable component — same throw behaviour,
same resolved logger, cache bounds, Octokit defaults, throttle inputs and
webhooks configuration, and the same stored options — except for the
`options.log` field, which `createProbot` defaults before construction
(alongside its deprecation warning). -/
theorem createProbot_equivalent_to_new (env : Env) (options : Options) :
    Except.map eraseOptionsLog (createProbot env options) =
      Except.map eraseOptionsLog (probotNew env options) := by
  unfold createProbot probotNew
  by_cases hg : gheHostInvalid env.GHE_HOST = true
  · simp [hg]
  · simp only [Bool.not_eq_true] at hg
    by_cases hc : jsTruthy options.cert = true <;>
      simp [hg, hc, Except.map, eraseOptionsLog]

/-- Claim C10: the constructor mutates the caller's options object in
exactly three places — `webhookPath` defaults to `"/"` when absent,
`secret` defaults to `"development"` when absent, and `privateKey` is
overwritten with `cert` when `cert` is set — and every other field of the
stored options equals the caller's. -/
theorem constructor_mutates_options (env : Env) (opts : Options)
    (m : ProbotModel) (h : probotNew env opts = .ok m) :
    (opts.webhookPath = none → m.options.webhookPath = some "/") ∧
    (opts.secret = none → m.options.secret = some "development") ∧
    (jsTruthy opts.cert = true → m.options.privateKey = opts.cert) ∧
    (jsTruthy opts.cert = false → m.options.privateKey = opts.privateKey) ∧
    m.options.githubToken = opts.githubToken ∧
    m.options.id = opts.id ∧
    m.options.Octokit = opts.Octokit ∧
    m.options.log = opts.log ∧
    m.options.redisConfig = opts.redisConfig ∧
    m.options.cert = opts.cert ∧
    m.options.port = opts.port ∧
    m.options.webhookProxy = opts.webhookProxy := by
  unfold probotNew at h
  split at h
  · exact absurd h (by simp)
  · simp only [Except.ok.injEq] at h
    subst h
    by_cases hc : jsTruthy opts.cert = true <;>
      refine ⟨fun hw => by simp [hc, jsOr, hw],
              fun hs => by simp [hc, jsOr, hs],
              fun hcert => by simp [hc] at hcert ⊢,
              fun hcert => by simp [hc] at hcert ⊢,
              by simp [hc], by simp [hc], by simp [hc], by simp [hc],
              by simp [hc], by simp [hc], by simp [hc], by simp [hc]⟩

/-- Witness for `constructor_mutates_options` at the all-absent options:
the stored options carry the defaulted `webhookPath` and `secret`. -/
theorem constructor_mutates_options_witness :
    exampleModel.options.webhookPath = some "/" ∧
    exampleModel.options.secret = some "development" :=
  ⟨(constructor_mutates_options exampleEnv exampleOptions exampleModel rfl).1
      rfl,
    (constructor_mutates_options exampleEnv exampleOptions exampleModel
        rfl).2.1 rfl⟩

/-- JS `Promise.all` over a list of settled outcomes: fulfils with the list
of values when every promise fulfils, and otherwise rejects with the first
rejection (settlement order modelled by list order). -/
def promiseAll : List (Except String Unit) → Except String (List Unit)
  | [] => .ok []
  | .error e :: _ => .error e
  | .ok _ :: rest =>
    match promiseAll rest with
    | .ok us => .ok (() :: us)
    | .error e => .error e

/-- The failures among a list of settled handler outcomes, in order. -/
def collectedFailures : List (Except String Unit) → List String
  | [] => []
  | .ok _ :: rest => collectedFailures rest
  | .error e :: rest => e :: collectedFailures rest

/-- The failures surfaced to the caller by an aggregate result: the single
rejection reason, or nothing on success. -/
def surfacedFailures : Except String (List Unit) → List String
  | .error e => [e]
  | .ok _ => []

/-- Embedding of `Probot.receive` (src/src/index.ts lines 254-257):
`Promise.all(this.apps.map((app) => app.receive(event)))`. Each loaded
application's `receive` is an opaque handler modelled by the settled
outcome it produces for the event. The first component records every
application's outcome (the `map` invokes all of them); the second is the
`Promise.all` aggregate returned to the caller. -/
def probotReceive (apps : List (Nat → Except String Unit)) (event : Nat) :
    List (Except String Unit) × Except String (List Unit) :=
  let settled := apps.map (fun app => app event)
  (settled, promiseAll settled)

theorem promiseAll_error_iff (rs : List (Except String Unit)) (e : String) :
    promiseAll rs = Except.error e ↔ (collectedFailures rs).head? = some e := by
  induction rs with
  | nil => simp [promiseAll, collectedFailures]
  | cons r rest ih =>
    cases r with
    | error e1 => simp [promiseAll, collectedFailures]
    | ok u =>
      have hcf : collectedFailures (Except.ok u :: rest) = collectedFailures rest := rfl
      rw [hcf, ← ih]
      cases hr : promiseAll rest <;> simp [promiseAll, hr]

theorem promiseAll_eq_ok (rs : List (Except String Unit)) (us : List Unit) :
    promiseAll rs = Except.ok us →
      collectedFailures rs = [] ∧ us = List.replicate rs.length () := by
  induction rs generalizing us with
  | nil =>
    intro h
    simp [promiseAll] at h
    subst h
    simp [collectedFailures]
  | cons r rest ih =>
    intro h
    cases r with
    | error e => simp [promiseAll] at h
    | ok u =>
      cases hr : promiseAll rest with
      | error e => simp [promiseAll, hr] at h
      | ok us1 =>
        simp [promiseAll, hr] at h
        obtain ⟨hcf, hus⟩ := ih us1 hr
        constructor
        · simpa [collectedFailures] using hcf
        · simp [← h, hus, List.replicate]

theorem promiseAll_of_no_failures (rs : List (Except String Unit)) :
    collectedFailures rs = [] →
      promiseAll rs = Except.ok (List.replicate rs.length ()) := by
  induction rs with
  | nil => intro _; rfl
  | cons r rest ih =>
    intro h
    cases r with
    | error e => simp [collectedFailures] at h
    | ok u =>
      have hcf : collectedFailures rest = [] := by
        simpa [collectedFailures] using h
      simp [promiseAll, ih hcf, List.replicate]

/-- Counterexample to claim C1: with two loaded applications that both
fail, `Probot.receive`'s `Promise.all` aggregate surfaces only the first
failure, not the collected list of per-handler failures. -/
theorem receive_not_collected_failures :
    ¬ (surfacedFailures
          (probotReceive
            [fun _ => Except.error "first", fun _ => Except.error "second"] 0).2 =
        collectedFailures
          (probotReceive
            [fun _ => Except.error "first", fun _ => Except.error "second"] 0).1) := by
  decide

/-- Claim C1 as amended: `Probot.receive` invokes every loaded
application's `receive` on the event (a failing one does not prevent the
others from being invoked), fulfils exactly when all of them succeed, and
otherwise rejects with the first failure alone rather than a collected
list of per-handler failures. -/
theorem receive_first_failure_only
    (apps : List (Nat → Except String Unit)) (event : Nat) :
    (probotReceive apps event).1 = apps.map (fun app => app event) ∧
    (∀ e, (probotReceive apps event).2 = Except.error e ↔
      (collectedFailures (probotReceive apps event).1).head? = some e) ∧
    ((probotReceive apps event).2 = Except.ok (List.replicate apps.length ()) ↔
      collectedFailures (probotReceive apps event).1 = []) := by
  refine ⟨rfl, fun e => promiseAll_error_iff _ e, ?_, ?_⟩
  · intro h
    exact (promiseAll_eq_ok _ _ h).1
  · intro h
    have hall := promiseAll_of_no_failures _ h
    simpa [probotReceive] using hall

/-- Witness for `receive_first_failure_only`: one succeeding and one
failing application, where the aggregate is the failure. -/
theorem receive_first_failure_only_witness :
    (probotReceive [fun _ => Except.ok (), fun _ => Except.error "boom"] 0).2 =
      Except.error "boom" :=
  ((receive_first_failure_only
      [fun _ => Except.ok (), fun _ => Except.error "boom"] 0).2.1 "boom").mpr
    (by decide)

/-- Modelled from the spec: the webhook verifier of §4.5 lives in the
`@octokit/webhooks` dependency, not under `src/`; its HMAC-SHA256 digest is
modelled as an abstract keyed digest of the secret and the raw body. -/
def hmacDigest (secret body : String) : String :=
  "sha256=" ++ secret ++ ":" ++ body

/-- Modelled from the spec: `verify(rawBody, signatureHeader, secret)` of
§4.5 — rejects when the secret or the signature header is missing, and
otherwise accepts exactly when the header equals the expected digest of
the raw body under the secret. -/
def verifyWebhook (secret : Option String) (rawBody : String)
    (signatureHeader : Option String) : Bool :=
  match secret, signatureHeader with
  | some sec, some sig => sig == hmacDigest sec rawBody
  | _, _ => false

/-- Whether a constructed `Probot` accepts an inbound delivery: the
constructor (src/src/index.ts lines 176-177 and 227-231) hands
`options.secret || "development"` to `new Webhooks({ secret })`, whose
verifier checks the delivery's signature header against that secret. -/
def probotAcceptsDelivery (env : Env) (options : Options) (rawBody : String)
    (signatureHeader : Option String) : Bool :=
  match probotNew env options with
  | .ok m => verifyWebhook (some m.webhooks.secret) rawBody signatureHeader
  | .error _ => false

/-- Counterexample to claim C2: a `Probot` constructed with no webhook
secret does not reject deliveries — the constructor substitutes the
default secret `"development"`, so a delivery correctly signed with
`"development"` is accepted. -/
theorem no_secret_delivery_accepted :
    exampleOptions.secret = none ∧
    probotAcceptsDelivery exampleEnv exampleOptions "payload"
        (some (hmacDigest "development" "payload")) = true := by
  exact ⟨rfl, by decide⟩

/-- Claim C2 as amended: verification fails closed against the configured
secret — a missing signature header is rejected, and a signature header
that differs from the digest of the raw body under the effective secret is
rejected — but a missing webhook secret does not yield rejection: the
constructor replaces it with the default `"development"`, and deliveries
are then verified strictly against that default. The verifier itself
rejects when its secret argument is missing. -/
theorem webhook_verification_fails_closed (env : Env) (options : Options)
    (rawBody : String) (signatureHeader : Option String) :
    (signatureHeader = none →
      probotAcceptsDelivery env options rawBody signatureHeader = false) ∧
    (∀ sig, signatureHeader = some sig →
      sig ≠ hmacDigest (jsOr options.secret "development") rawBody →
      probotAcceptsDelivery env options rawBody signatureHeader = false) ∧
    (∀ m, probotNew env options = .ok m →
      m.webhooks.secret = jsOr options.secret "development") ∧
    (options.secret = none → ∀ m, probotNew env options = .ok m →
      m.webhooks.secret = "development") ∧
    verifyWebhook none rawBody signatureHeader = false := by
  have hsec : ∀ m, probotNew env options = .ok m →
      m.webhooks.secret = jsOr options.secret "development" := by
    intro m h
    unfold probotNew at h
    split at h
    · exact absurd h (by simp)
    · simp only [Except.ok.injEq] at h
      subst h
      by_cases hc : jsTruthy options.cert = true <;> simp [hc]
  refine ⟨?_, ?_, hsec, ?_, ?_⟩
  · intro hnone
    subst hnone
    unfold probotAcceptsDelivery
    cases hp : probotNew env options with
    | error e => rfl
    | ok m => simp [verifyWebhook]
  · intro sig hsig hne
    subst hsig
    unfold probotAcceptsDelivery
    cases hp : probotNew env options with
    | error e => rfl
    | ok m => simp [verifyWebhook, hsec m hp, hne]
  · intro h0 m hm
    rw [hsec m hm, h0]
    rfl
  · cases signatureHeader <;> rfl

/-- Witness for `webhook_verification_fails_closed`: a delivery with no
signature header is rejected, and one with a wrong signature is rejected. -/
theorem webhook_verification_fails_closed_witness :
    probotAcceptsDelivery exampleEnv exampleOptions "payload" none = false ∧
    probotAcceptsDelivery exampleEnv exampleOptions "payload"
        (some "sha256=bogus") = false :=
  ⟨(webhook_verification_fails_closed exampleEnv exampleOptions "payload"
        none).1 rfl,
    ((webhook_verification_fails_closed exampleEnv exampleOptions "payload"
        (some "sha256=bogus")).2.1 "sha256=bogus") rfl (by decide)⟩

/-- Modelled from the spec: the bounded LRU token cache provided by the
`lru-cache` dependency (not under `src/`), per §3 and §8 — entries ordered
most-recently-used first, with a capacity bound `max`. -/
structure LRU where
  max : Nat
  entries : List (Nat × String)
deriving DecidableEq, Repr

/-- Modelled from the spec: inserting a token moves its key to the
most-recently-used position and truncates to the capacity bound, so the
least-recently-used entry (the last) is evicted when capacity is
exceeded. -/
def LRU.set (c : LRU) (k : Nat) (v : String) : LRU :=
  { c with
    entries := ((k, v) :: c.entries.filter (fun e => e.1 != k)).take c.max }

/-- The token cache created by the `Probot` constructor
(src/src/index.ts lines 197-202): `new LRUCache({ max: 15000, ... })`. -/
def probotTokenCache : LRU := { max := 15000, entries := [] }

theorem LRU.length_set_le (c : LRU) (k : Nat) (v : String) :
    (c.set k v).entries.length ≤ c.max := by
  simp only [LRU.set, List.length_take]
  exact Nat.min_le_left _ _

theorem LRU.foldl_set_length_le (ops : List (Nat × String)) (c : LRU)
    (h : c.entries.length ≤ c.max) :
    (ops.foldl (fun acc kv => acc.set kv.1 kv.2) c).entries.length ≤ c.max := by
  induction ops generalizing c with
  | nil => simpa using h
  | cons kv rest ih =>
    have hstep := ih (c.set kv.1 kv.2) (c.length_set_le kv.1 kv.2)
    simpa using hstep

theorem LRU.set_evicts_lru (c : LRU) (k : Nat) (v : String)
    (hfull : c.entries.length = c.max) (hpos : 0 < c.max)
    (hnew : ∀ e ∈ c.entries, e.1 ≠ k) :
    (c.set k v).entries = (k, v) :: c.entries.dropLast := by
  have hf : c.entries.filter (fun e => e.1 != k) = c.entries := by
    rw [List.filter_eq_self]
    intro a ha
    simpa using hnew a ha
  obtain ⟨m, hm⟩ : ∃ m, c.max = m + 1 :=
    ⟨c.max - 1, (Nat.succ_pred_eq_of_pos hpos).symm⟩
  have hmlen : m = c.entries.length - 1 := by omega
  simp only [LRU.set, hf, hm, List.take_succ_cons]
  rw [hmlen, ← List.dropLast_eq_take]

/-- Claim C7: the `Probot` token cache is created with capacity 15000;
after any sequence of insertions (starting from the empty cache) it holds
at most 15000 entries; and inserting a fresh key into a full cache evicts
exactly the least-recently-used entry, the new entry becoming the
most-recently-used. -/
theorem token_cache_lru_bound_and_eviction :
    probotTokenCache.max = 15000 ∧
    (∀ ops : List (Nat × String),
      (ops.foldl (fun acc kv => acc.set kv.1 kv.2)
          probotTokenCache).entries.length ≤ 15000) ∧
    (∀ (c : LRU) (k : Nat) (v : String),
      c.entries.length = c.max → 0 < c.max → (∀ e ∈ c.entries, e.1 ≠ k) →
      (c.set k v).entries = (k, v) :: c.entries.dropLast) := by
  refine ⟨rfl, ?_, ?_⟩
  · intro ops
    exact LRU.foldl_set_length_le ops probotTokenCache (by simp [probotTokenCache])
  · intro c k v hfull hpos hnew
    exact LRU.set_evicts_lru c k v hfull hpos hnew

/-- Witness for `token_cache_lru_bound_and_eviction`: a full cache of
capacity 2 holding keys 1 (most recent) and 2 (least recent) evicts key 2
when key 3 is inserted. -/
theorem token_cache_lru_bound_and_eviction_witness :
    (({ max := 2, entries := [(1, "a"), (2, "b")] } : LRU).set 3 "c").entries =
      [(3, "c"), (1, "a")] := by
  have h := token_cache_lru_bound_and_eviction.2.2
    { max := 2, entries := [(1, "a"), (2, "b")] } 3 "c" rfl (by decide) (by decide)
  simpa using h
